import Mathlib

/-!
Verification of the crime forecasting and risk-scoring engine of the
E-Responde admin dashboard.

The development shallowly embeds the JavaScript source:

* module LocalArima embeds the local ARIMA-branded forecasting service
  (generateForecast, calculateRSquared, and the field-name normalization
  of fetchHistoricalData);
* module UAM embeds the statistical forecasting, insight and heatmap code
  of UserAccountManagement.jsx (generateCrimeForecast,
  generateForecastInsights, createHeatmapData, and the statistical
  fallback of fetchCrimeForecast).

JavaScript numbers are modelled as exact rationals (reals where a square
root is taken); Math.round is Mathlib's round, which agrees with JS
Math.round (floor of x + 1/2).  Ambient sources of data that the code
reads from the runtime (Math.random jitter, Date decompositions of the
clock) are passed in explicitly as an environment record, as the spec
itself demands of a reimplementation.
-/

namespace LocalArima

/-- Sum of the regression abscissas 0, 1, ..., n-1 (the reduce over x). -/
def sumX (y : List ℚ) : ℚ := ((List.range y.length).map (fun i => (i : ℚ))).sum

/-- Sum of the ordinates (the reduce over y). -/
def sumY (y : List ℚ) : ℚ := y.sum

/-- Sum of x_i * y_i, mirroring x.reduce((sum, xi, i) => sum + xi * y[i], 0). -/
def sumXY (y : List ℚ) : ℚ :=
  ((List.range y.length).map (fun (i : ℕ) => (i : ℚ) * y.getD i 0)).sum

/-- Sum of x_i * x_i. -/
def sumXX (y : List ℚ) : ℚ :=
  ((List.range y.length).map (fun i => (i : ℚ) * (i : ℚ))).sum

/-- Ordinary least squares slope, as computed by generateForecast. -/
def slope (y : List ℚ) : ℚ :=
  ((y.length : ℚ) * sumXY y - sumX y * sumY y) /
    ((y.length : ℚ) * sumXX y - sumX y * sumX y)

/-- Ordinary least squares intercept, as computed by generateForecast. -/
def intercept (y : List ℚ) : ℚ := (sumY y - slope y * sumX y) / (y.length : ℚ)

/-- Mean of the historical series (avg in the source). -/
def avgY (y : List ℚ) : ℚ := sumY y / (y.length : ℚ)

/-- Population variance of the historical series: the source takes the
variance of the raw counts around their mean, not of the residuals. -/
def variance (y : List ℚ) : ℚ :=
  (y.map (fun yi => (yi - avgY y) ^ 2)).sum / (y.length : ℚ)

/-- Predicted count for future index length + i:
Math.max(0, Math.round(slope * xValue + intercept)). -/
def predictedAt (y : List ℚ) (i : ℕ) : ℤ :=
  max 0 (round (slope y * ((y.length + i : ℕ) : ℚ) + intercept y))

/-- Confidence half-width: 1.96 * stdDev where stdDev = Math.sqrt(variance). -/
noncomputable def confidence (y : List ℚ) : ℝ :=
  1.96 * Real.sqrt ((variance y : ℚ) : ℝ)

/-- Upper confidence bound: Math.max(0, Math.round(predicted + confidence)). -/
noncomputable def upperAt (y : List ℚ) (i : ℕ) : ℤ :=
  max 0 (round ((predictedAt y i : ℝ) + confidence y))

/-- Lower confidence bound: Math.max(0, Math.round(predicted - confidence)). -/
noncomputable def lowerAt (y : List ℚ) (i : ℕ) : ℤ :=
  max 0 (round ((predictedAt y i : ℝ) - confidence y))

/-- The forecast array produced by the main loop. -/
def forecastList (y : List ℚ) (months : ℕ) : List ℤ :=
  (List.range months).map (predictedAt y)

/-- The confidenceUpper array produced by the main loop. -/
noncomputable def upperList (y : List ℚ) (months : ℕ) : List ℤ :=
  (List.range months).map (upperAt y)

/-- The confidenceLower array produced by the main loop. -/
noncomputable def lowerList (y : List ℚ) (months : ℕ) : List ℤ :=
  (List.range months).map (lowerAt y)

/-- Residual sum of squares of the fit, from calculateRSquared. -/
def ssRes (y : List ℚ) : ℚ :=
  (((List.range y.length).map
    (fun (i : ℕ) => (y.getD i 0 - (slope y * (i : ℚ) + intercept y)) ^ 2))).sum

/-- Total sum of squares around the mean, from calculateRSquared. -/
def ssTot (y : List ℚ) : ℚ :=
  (y.map (fun yi => (yi - avgY y) ^ 2)).sum

/-- R squared of the fit: 1 - ssRes / ssTot. -/
def rSquared (y : List ℚ) : ℚ := 1 - ssRes y / ssTot y

/-- Result record of the regression branch of generateForecast. -/
structure ForecastResult where
  forecast : List ℤ
  confidenceUpper : List ℤ
  confidenceLower : List ℤ
  trend : ℚ
  rSquared : ℚ

/-- A call to generateForecast returns either the flat-continuation array
(fewer than 3 points) or the full regression record. -/
inductive ForecastReturn where
  | flat (values : List ℚ)
  | full (r : ForecastResult)

/-- Full regression branch of generateForecast. -/
noncomputable def generateForecastFull (y : List ℚ) (months : ℕ) : ForecastResult :=
  { forecast := forecastList y months
  , confidenceUpper := upperList y months
  , confidenceLower := lowerList y months
  , trend := slope y
  , rSquared := rSquared y }

/-- Embedding of generateForecast(historicalData, months).  With fewer than
3 points it returns Array(months).fill(Math.max(0, lastValue)) where
lastValue is the last element of the series, or 0 when the series is empty
(the JS expression historicalData[historicalData.length - 1] || 0). -/
noncomputable def generateForecast (y : List ℚ) (months : ℕ) : ForecastReturn :=
  if y.length < 3 then
    .flat (List.replicate months (max 0 (y.getLast?.getD 0)))
  else
    .full (generateForecastFull y months)

/-- The perfectly linear six-month series used by the spec's example. -/
def y6 : List ℚ := [1, 2, 3, 4, 5, 6]

end LocalArima

namespace LocalArima

lemma round_mono_real {x y : ℝ} (h : x ≤ y) : round x ≤ round y := by
  rw [round_eq, round_eq]
  exact Int.floor_le_floor (by linarith)

lemma confidence_nonneg (y : List ℚ) : 0 ≤ confidence y := by
  unfold confidence
  positivity

lemma upperAt_eq (y : List ℚ) (i : ℕ) :
    upperAt y i = max 0 (round (confidence y) + predictedAt y i) := by
  rw [upperAt,
    show ((predictedAt y i : ℝ) + confidence y) = confidence y + (predictedAt y i : ℝ) from
      add_comm _ _,
    round_add_int]

lemma lowerAt_eq (y : List ℚ) (i : ℕ) :
    lowerAt y i = max 0 (round (-confidence y) + predictedAt y i) := by
  rw [lowerAt,
    show ((predictedAt y i : ℝ) - confidence y) = -confidence y + (predictedAt y i : ℝ) by ring,
    round_add_int]

lemma slope_y6 : slope y6 = 1 := by
  norm_num [slope, sumXY, sumX, sumY, sumXX, y6, List.range_succ]

lemma intercept_y6 : intercept y6 = 1 := by
  norm_num [intercept, slope, sumXY, sumX, sumY, sumXX, y6, List.range_succ]

lemma variance_y6 : variance y6 = 35 / 12 := by
  norm_num [variance, avgY, sumY, y6, List.range_succ]

lemma rSquared_y6 : rSquared y6 = 1 := by
  norm_num [rSquared, ssRes, ssTot, slope, intercept, avgY, sumXY, sumX, sumY, sumXX, y6,
    List.range_succ]

lemma forecastList_y6 : forecastList y6 3 = [7, 8, 9] := by
  norm_num [forecastList, predictedAt, slope, intercept, sumXY, sumX, sumY, sumXX, y6,
    List.range_succ, round_eq]

lemma confidence_y6_lb : (5 / 2 : ℝ) < confidence y6 := by
  have hv : ((variance y6 : ℚ) : ℝ) = 35 / 12 := by rw [variance_y6]; norm_num
  have hs : (125 / 98 : ℝ) < Real.sqrt ((variance y6 : ℚ) : ℝ) := by
    rw [hv, show (125 / 98 : ℝ) = 125 / 98 from rfl]
    rw [show ((125 : ℝ) / 98 < Real.sqrt (35 / 12)) = ((125 : ℝ) / 98 < Real.sqrt (35 / 12))
      from rfl]
    exact (Real.lt_sqrt (by norm_num)).mpr (by norm_num)
  unfold confidence
  nlinarith [hs]

lemma confidence_y6_ub : confidence y6 < (7 / 2 : ℝ) := by
  have hv : ((variance y6 : ℚ) : ℝ) = 35 / 12 := by rw [variance_y6]; norm_num
  have hs : Real.sqrt ((variance y6 : ℚ) : ℝ) < (25 / 14 : ℝ) := by
    rw [hv]
    exact (Real.sqrt_lt' (by norm_num)).mpr (by norm_num)
  unfold confidence
  nlinarith [hs]

lemma round_confidence_y6 : round (confidence y6) = 3 := by
  rw [round_eq]
  rw [Int.floor_eq_iff]
  constructor
  · push_cast
    have := confidence_y6_lb
    linarith
  · push_cast
    have := confidence_y6_ub
    linarith

lemma round_neg_confidence_y6 : round (-confidence y6) = -3 := by
  rw [round_eq]
  rw [Int.floor_eq_iff]
  constructor
  · push_cast
    have := confidence_y6_ub
    linarith
  · push_cast
    have := confidence_y6_lb
    linarith

lemma predictedAt_y6 : predictedAt y6 0 = 7 ∧ predictedAt y6 1 = 8 ∧ predictedAt y6 2 = 9 := by
  refine ⟨?_, ?_, ?_⟩ <;>
    norm_num [predictedAt, slope, intercept, sumXY, sumX, sumY, sumXX, y6, List.range_succ,
      round_eq]

lemma upperList_y6 : upperList y6 3 = [10, 11, 12] := by
  have h := predictedAt_y6
  simp only [upperList, List.range_succ, List.range_zero, List.map_append, List.map_cons,
    List.map_nil, List.nil_append, List.cons_append]
  rw [upperAt_eq, upperAt_eq, upperAt_eq, round_confidence_y6, h.1, h.2.1, h.2.2]
  norm_num

lemma lowerList_y6 : lowerList y6 3 = [4, 5, 6] := by
  have h := predictedAt_y6
  simp only [lowerList, List.range_succ, List.range_zero, List.map_append, List.map_cons,
    List.map_nil, List.nil_append, List.cons_append]
  rw [lowerAt_eq, lowerAt_eq, lowerAt_eq, round_neg_confidence_y6, h.1, h.2.1, h.2.2]
  norm_num

/-- C1 counterexample: on the series [1,2,3,4,5,6] with horizon 3, the claimed
conjunction (slope 1, intercept 0, R squared 1, forecast [7,8,9], zero-width
confidence bands) is false: the fitted intercept is 1, not 0 (the regression
runs over index positions 0..5, so the line is y = x + 1), and the bands are
not zero-width. -/
theorem trend_linear_series_claim_false :
    ¬ (slope y6 = 1 ∧ intercept y6 = 0 ∧ rSquared y6 = 1 ∧
       forecastList y6 3 = [7, 8, 9] ∧
       upperList y6 3 = forecastList y6 3 ∧
       lowerList y6 3 = forecastList y6 3) := by
  rintro ⟨-, hb, -⟩
  rw [intercept_y6] at hb
  exact one_ne_zero hb

/-- C1 amended: for the series [1,2,3,4,5,6] and horizon 3, generateForecast
fits slope 1 and intercept 1, reports R squared 1, and predicts [7,8,9]; the
confidence bands have half-width 1.96 times the standard deviation of the
counts themselves (not of the residuals), giving upper bounds [10,11,12] and
lower bounds [4,5,6]. -/
theorem trend_linear_series_values :
    slope y6 = 1 ∧ intercept y6 = 1 ∧ rSquared y6 = 1 ∧
    forecastList y6 3 = [7, 8, 9] ∧
    upperList y6 3 = [10, 11, 12] ∧
    lowerList y6 3 = [4, 5, 6] :=
  ⟨slope_y6, intercept_y6, rSquared_y6, forecastList_y6, upperList_y6, lowerList_y6⟩

/-- C7: with fewer than 3 historical points (a series of nonnegative counts),
generateForecast degrades to the flat continuation that repeats the last known
value, or 0 for an empty series, for every horizon step. -/
theorem generateForecast_flat_continuation (y : List ℚ) (months : ℕ)
    (hlen : y.length < 3) (hnn : ∀ a ∈ y, 0 ≤ a) :
    generateForecast y months = .flat (List.replicate months (y.getLast?.getD 0)) := by
  have hnn' : 0 ≤ y.getLast?.getD 0 := by
    cases hy : y.getLast? with
    | none => simp
    | some a => simpa using hnn a (List.mem_of_getLast?_eq_some hy)
  simp [generateForecast, hlen, max_eq_right hnn']

/-- C7 witness: the series [5] with horizon 3 yields the flat forecast
[5,5,5]. -/
theorem generateForecast_flat_continuation_witness :
    generateForecast [(5 : ℚ)] 3 = .flat [5, 5, 5] := by
  have h := generateForecast_flat_continuation [(5 : ℚ)] 3 (by simp)
    (by intro a ha; rw [List.mem_singleton] at ha; rw [ha]; norm_num)
  simpa [List.replicate] using h

/-- C6: for a series of length at least 3 and a horizon of at least 1 month,
generateForecast takes the regression branch and returns exactly months
forecast points, and at every index the lower bound, prediction and upper
bound satisfy 0 <= lower <= predicted <= upper. -/
theorem generateForecast_point_bounds (y : List ℚ) (months : ℕ)
    (h3 : 3 ≤ y.length) (hm : 1 ≤ months) :
    generateForecast y months = .full (generateForecastFull y months) ∧
    (generateForecastFull y months).forecast.length = months ∧
    (generateForecastFull y months).confidenceUpper.length = months ∧
    (generateForecastFull y months).confidenceLower.length = months ∧
    ∀ i < months,
      0 ≤ (generateForecastFull y months).confidenceLower.getD i 0 ∧
      (generateForecastFull y months).confidenceLower.getD i 0 ≤
        (generateForecastFull y months).forecast.getD i 0 ∧
      (generateForecastFull y months).forecast.getD i 0 ≤
        (generateForecastFull y months).confidenceUpper.getD i 0 := by
  refine ⟨by simp [generateForecast, Nat.not_lt.mpr h3], by simp [generateForecastFull, forecastList],
    by simp [generateForecastFull, upperList], by simp [generateForecastFull, lowerList], ?_⟩
  intro i hi
  have hget : ∀ (f : ℕ → ℤ), ((List.range months).map f).getD i 0 = f i := by
    intro f
    simp [List.getD_eq_getElem?_getD, List.getElem?_map, List.getElem?_range hi]
  have hp0 : (0 : ℤ) ≤ predictedAt y i := le_max_left 0 _
  have hrc : (0 : ℤ) ≤ round (confidence y) := by
    have := round_mono_real (confidence_nonneg y)
    simpa using this
  have hrn : round (-confidence y) ≤ 0 := by
    have : -confidence y ≤ 0 := by linarith [confidence_nonneg y]
    have := round_mono_real this
    simpa using this
  refine ⟨?_, ?_, ?_⟩
  · simp only [generateForecastFull, lowerList, hget]
    exact le_max_left 0 _
  · simp only [generateForecastFull, lowerList, forecastList, hget]
    rw [lowerAt_eq]
    exact max_le hp0 (by linarith)
  · simp only [generateForecastFull, upperList, forecastList, hget]
    rw [upperAt_eq]
    refine le_trans ?_ (le_max_right 0 _)
    linarith

/-- C6 witness: the series [1,2,3] with horizon 1 returns one point with
ordered bounds. -/
theorem generateForecast_point_bounds_witness :
    generateForecast [(1 : ℚ), 2, 3] 1 = .full (generateForecastFull [(1 : ℚ), 2, 3] 1) ∧
    (generateForecastFull [(1 : ℚ), 2, 3] 1).forecast.length = 1 ∧
    (generateForecastFull [(1 : ℚ), 2, 3] 1).confidenceUpper.length = 1 ∧
    (generateForecastFull [(1 : ℚ), 2, 3] 1).confidenceLower.length = 1 ∧
    ∀ i < 1,
      0 ≤ (generateForecastFull [(1 : ℚ), 2, 3] 1).confidenceLower.getD i 0 ∧
      (generateForecastFull [(1 : ℚ), 2, 3] 1).confidenceLower.getD i 0 ≤
        (generateForecastFull [(1 : ℚ), 2, 3] 1).forecast.getD i 0 ∧
      (generateForecastFull [(1 : ℚ), 2, 3] 1).forecast.getD i 0 ≤
        (generateForecastFull [(1 : ℚ), 2, 3] 1).confidenceUpper.getD i 0 :=
  generateForecast_point_bounds [(1 : ℚ), 2, 3] 1 (by simp) (by simp)

end LocalArima

namespace UAM

/-- Three-tier risk classification. -/
inductive Risk where
  | low
  | medium
  | high
deriving DecidableEq

/-- A historical record as consumed by generateCrimeForecast.  The Date
decompositions that the source computes from item.timestamp (getHours,
getDay, getDate) are carried as fields, since they are read from the
runtime's clock/locale machinery; ts is the epoch-millisecond value of the
timestamp; crimeType is the normalized crime type label. -/
structure CrimeRecord where
  ts : ℚ
  hour : ℕ
  dayOfWeek : ℕ
  dayOfMonth : ℕ
  crimeType : String
deriving DecidableEq

/-- Ambient inputs of a generateCrimeForecast invocation: the clock (new
Date().getTime()), the Date decompositions of each future day now + i days
(getDay, getDate, and the ISO date string), and the Math.random jitter drawn
for day i. -/
structure ForecastEnv where
  nowMs : ℚ
  dowAt : ℕ → ℕ
  domAt : ℕ → ℕ
  dateAt : ℕ → String
  jitterAt : ℕ → ℚ

/-- One day of the pattern-based forecast. -/
structure DailyForecast where
  date : String
  dayOfWeek : String
  predictedCrimes : ℤ
  hourly : List ℤ
  riskLevel : Risk
deriving DecidableEq

/-- Default DailyForecast used only as the getD fallback. -/
def dfltDay : DailyForecast := ⟨"", "", 0, [], .low⟩

/-- Day-of-week names, as indexed by Date#getDay. -/
def dayNames : List String :=
  ["Sunday", "Monday", "Tuesday", "Wednesday", "Thursday", "Friday", "Saturday"]

/-- Forecast horizon in days for a period selector. -/
def periodDays (period : String) : ℕ :=
  if period = "1week" then 7 else if period = "2weeks" then 14 else 30

/-- hourlyPatterns[h]: number of historical records at hour h. -/
def hourCount (hist : List CrimeRecord) (h : ℕ) : ℕ :=
  (hist.filter (fun r => r.hour == h)).length

/-- dailyPatterns[d]: number of historical records on day-of-week d. -/
def dowCount (hist : List CrimeRecord) (d : ℕ) : ℕ :=
  (hist.filter (fun r => r.dayOfWeek == d)).length

/-- weeklyPatterns[w]: number of historical records with
Math.floor(getDate() / 7) equal to w. -/
def womCount (hist : List CrimeRecord) (w : ℕ) : ℕ :=
  (hist.filter (fun r => r.dayOfMonth / 7 == w)).length

/-- daysInHistory: Math.max(1, (now - firstTimestamp) / 86400000). -/
def daysInHistory (env : ForecastEnv) (hist : List CrimeRecord) : ℚ :=
  max 1 ((env.nowMs - ((hist.head?.map CrimeRecord.ts).getD 0)) / 86400000)

/-- baseRate = totalCrimes / daysInHistory. -/
def baseRate (env : ForecastEnv) (hist : List CrimeRecord) : ℚ :=
  (hist.length : ℚ) / daysInHistory env hist

/-- Day-of-week multiplier: dailyPatterns[d] / (totalCrimes / 7) || 1.  A
missing tally gives NaN (undefined divided by a number), which the JS
or-default turns into 1. -/
def dayMult (hist : List CrimeRecord) (d : ℕ) : ℚ :=
  if dowCount hist d = 0 then 1 else (dowCount hist d : ℚ) / ((hist.length : ℚ) / 7)

/-- Week-of-month multiplier: weeklyPatterns[w] / (totalCrimes / 4) || 1. -/
def weekMult (hist : List CrimeRecord) (w : ℕ) : ℚ :=
  if womCount hist w = 0 then 1 else (womCount hist w : ℚ) / ((hist.length : ℚ) / 4)

/-- Hourly multiplier: (hourlyPatterns[h] || 0) / (totalCrimes / 24) || 1; a
zero tally yields the falsy quotient 0 and therefore the default 1. -/
def hourMult (hist : List CrimeRecord) (h : ℕ) : ℚ :=
  if hourCount hist h = 0 then 1 else (hourCount hist h : ℚ) / ((hist.length : ℚ) / 24)

/-- Unrounded daily prediction for future day i:
baseRate * dayMultiplier * weekMultiplier * randomFactor. -/
def predictionAt (env : ForecastEnv) (hist : List CrimeRecord) (i : ℕ) : ℚ :=
  baseRate env hist * dayMult hist (env.dowAt i) * weekMult hist (env.domAt i / 7) *
    env.jitterAt i

/-- Risk classification of a prediction against the base rate. -/
def riskOf (p b : ℚ) : Risk :=
  if p > b * 1.5 then .high else if p > b * 1.2 then .medium else .low

/-- The DailyForecast entry pushed for future day i. -/
def mkDay (env : ForecastEnv) (hist : List CrimeRecord) (i : ℕ) : DailyForecast :=
  { date := env.dateAt i
  , dayOfWeek := dayNames.getD (env.dowAt i) ""
  , predictedCrimes := round (predictionAt env hist i)
  , hourly := (List.range 24).map (fun h => round (predictionAt env hist i / 24 * hourMult hist h))
  , riskLevel := riskOf (predictionAt env hist i) (baseRate env hist) }

/-- Embedding of generateCrimeForecast(historicalData, period). -/
def generateCrimeForecast (env : ForecastEnv) (hist : List CrimeRecord) (period : String) :
    List DailyForecast :=
  if hist.isEmpty then [] else (List.range (periodDays period)).map (fun k => mkDay env hist (k + 1))

end UAM

namespace UAM

/-- The stability-relevant comparator of forecastData.sort:
(a, b) => b.predictedCrimes - a.predictedCrimes, i.e. keep a before b when
b.predictedCrimes <= a.predictedCrimes.  Array.prototype.sort is a stable
sort (ES2019), so its output on a consistent comparator is the unique stable
descending ordering, realised here by insertion sort. -/
def byPredDesc (a b : DailyForecast) : Prop := b.predictedCrimes ≤ a.predictedCrimes

instance : DecidableRel byPredDesc := fun a b => by unfold byPredDesc; infer_instance

instance : IsTotal DailyForecast byPredDesc :=
  ⟨fun a b => le_total b.predictedCrimes a.predictedCrimes⟩

instance : IsTrans DailyForecast byPredDesc :=
  ⟨fun _ _ _ hab hbc => le_trans hbc hab⟩

/-- Comparator of the peak-hour sort: ([,a],[,b]) => b - a on the counts. -/
def byCountDesc (a b : ℕ × ℤ) : Prop := b.2 ≤ a.2

instance : DecidableRel byCountDesc := fun a b => by unfold byCountDesc; infer_instance

/-- Summary record produced by generateForecastInsights. -/
structure ForecastInsights where
  predictedCrimeCount : ℤ
  riskLevel : Risk
  peakHours : List (ℕ × ℤ)
  peakDays : List (String × String × ℤ)
  recommendations : List String
deriving DecidableEq

/-- hourlyTotals[h]: per-hour counts summed across all forecast days. -/
def hourlyTotal (fd : List DailyForecast) (h : ℕ) : ℤ :=
  (fd.map (fun d => d.hourly.getD h 0)).sum

/-- Number of keys of the hourlyTotals object: a day's hourlyBreakdown object
has keys 0..hourly.length-1, so the union of keys across days is
0..maxHourKeys-1. -/
def maxHourKeys (fd : List DailyForecast) : ℕ :=
  fd.foldr (fun d m => max d.hourly.length m) 0

/-- Embedding of generateForecastInsights(forecastData, historicalData).
Because forecastData.sort sorts the caller's array in place, the result is
paired with the post-call state of the forecastData argument. -/
def generateForecastInsights (fd : List DailyForecast) (hist : List CrimeRecord) :
    ForecastInsights × List DailyForecast :=
  if fd.length = 0 then (⟨0, .low, [], [], []⟩, fd) else
  let totalPredicted : ℤ := (fd.map (fun d => d.predictedCrimes)).sum
  let peakHours : List (ℕ × ℤ) :=
    (List.insertionSort byCountDesc
      ((List.range (maxHourKeys fd)).map (fun h => (h, hourlyTotal fd h)))).take 3
  let sorted : List DailyForecast := List.insertionSort byPredDesc fd
  let peakDays : List (String × String × ℤ) :=
    (sorted.take 3).map (fun d => (d.date, d.dayOfWeek, d.predictedCrimes))
  let highRiskDays : ℕ := (sorted.filter (fun d => d.riskLevel == Risk.high)).length
  let riskLevel : Risk :=
    if (highRiskDays : ℚ) > (sorted.length : ℚ) * (3 / 10) then .high
    else if (highRiskDays : ℚ) > (sorted.length : ℚ) * (1 / 10) then .medium
    else .low
  let recommendations : List String :=
    (if riskLevel = .high then
      ["Increase police patrols during peak hours",
       "Deploy additional resources in high-risk areas"] else []) ++
    (if peakHours.any (fun p => 18 ≤ p.1 || p.1 ≤ 6) then
      ["Enhance night-time security measures"] else []) ++
    (if peakDays.any (fun d => d.2.1 == "Friday" || d.2.1 == "Saturday") then
      ["Prepare for weekend crime surge"] else []) ++
    (if (totalPredicted : ℚ) > (hist.length : ℚ) * (1 / 2) then
      ["Consider community awareness campaigns"] else [])
  (⟨totalPredicted, riskLevel, peakHours, peakDays, recommendations⟩, sorted)

end UAM

namespace UAM

/-- Two concrete forecast days in ascending order of predicted count. -/
def dayA : DailyForecast := ⟨"2025-01-01", "Wednesday", 1, [], .low⟩

/-- Second concrete forecast day, with the larger predicted count. -/
def dayB : DailyForecast := ⟨"2025-01-02", "Thursday", 2, [], .low⟩

/-- C3 counterexample: generateForecastInsights does not leave its input
unchanged.  On the two-day input [dayA, dayB] (ascending predicted counts)
the in-place forecastData.sort reorders the caller's array to [dayB, dayA]. -/
theorem generateForecastInsights_mutates_input :
    (generateForecastInsights [dayA, dayB] []).2 ≠ [dayA, dayB] := by
  decide

/-- C3 amended: generateForecastInsights permutes its input in place rather
than leaving it untouched: after the call the sequence holds exactly the same
elements (a permutation -- no element is lost, duplicated or mutated), now
sorted descending by predictedCrimes. -/
theorem generateForecastInsights_perm_sorted (fd : List DailyForecast)
    (hist : List CrimeRecord) :
    (generateForecastInsights fd hist).2.Perm fd ∧
    List.Sorted byPredDesc (generateForecastInsights fd hist).2 := by
  by_cases h : fd.length = 0
  · have : fd = [] := List.length_eq_zero.mp h
    subst this
    simp [generateForecastInsights]
  · constructor
    · simp only [generateForecastInsights, h, if_neg h]
      exact List.perm_insertionSort byPredDesc fd
    · simp only [generateForecastInsights, h, if_neg h]
      exact List.sorted_insertionSort byPredDesc fd

/-- C4: for a non-empty forecast list, the overall risk level of the insight
record is High iff the number of High-risk days exceeds 3/10 of the number of
days, Medium iff it exceeds 1/10 but not 3/10, and Low iff it is at most
1/10 of the number of days. -/
theorem generateForecastInsights_riskLevel_iff (fd : List DailyForecast)
    (hist : List CrimeRecord) (hne : fd ≠ []) :
    ((generateForecastInsights fd hist).1.riskLevel = .high ↔
      ((fd.filter (fun d => d.riskLevel == Risk.high)).length : ℚ) >
        (fd.length : ℚ) * (3 / 10)) ∧
    ((generateForecastInsights fd hist).1.riskLevel = .medium ↔
      (((fd.filter (fun d => d.riskLevel == Risk.high)).length : ℚ) >
        (fd.length : ℚ) * (1 / 10) ∧
       ¬ ((fd.filter (fun d => d.riskLevel == Risk.high)).length : ℚ) >
        (fd.length : ℚ) * (3 / 10))) ∧
    ((generateForecastInsights fd hist).1.riskLevel = .low ↔
      ((fd.filter (fun d => d.riskLevel == Risk.high)).length : ℚ) ≤
        (fd.length : ℚ) * (1 / 10)) := by
  have hlen : fd.length ≠ 0 := fun h => hne (List.length_eq_zero.mp h)
  have hperm := List.perm_insertionSort byPredDesc fd
  have hcount : ((List.insertionSort byPredDesc fd).filter
      (fun d => d.riskLevel == Risk.high)).length =
      (fd.filter (fun d => d.riskLevel == Risk.high)).length := by
    rw [← List.countP_eq_length_filter, ← List.countP_eq_length_filter]
    exact hperm.countP_eq _
  have hlen2 : (List.insertionSort byPredDesc fd).length = fd.length := hperm.length_eq
  have hn : (0 : ℚ) ≤ (fd.length : ℚ) := by positivity
  have hrl : (generateForecastInsights fd hist).1.riskLevel =
      (if ((fd.filter (fun d => d.riskLevel == Risk.high)).length : ℚ) >
          (fd.length : ℚ) * (3 / 10) then Risk.high
       else if ((fd.filter (fun d => d.riskLevel == Risk.high)).length : ℚ) >
          (fd.length : ℚ) * (1 / 10) then Risk.medium
       else Risk.low) := by
    simp only [generateForecastInsights, if_neg hlen, hcount, hlen2]
  rw [hrl]
  split_ifs with h1 h2
  · refine ⟨⟨fun _ => h1, fun _ => rfl⟩, ?_, ?_⟩
    · constructor
      · intro h
        exact absurd h (by decide)
      · rintro ⟨-, h3⟩
        exact absurd h1 h3
    · constructor
      · intro h
        exact absurd h (by decide)
      · intro hx
        exact absurd h1 (not_lt.mpr (by linarith))
  · refine ⟨?_, ⟨fun _ => ⟨h2, h1⟩, fun _ => rfl⟩, ?_⟩
    · constructor
      · intro h
        exact absurd h (by decide)
      · intro hx
        exact absurd hx h1
    · constructor
      · intro h
        exact absurd h (by decide)
      · intro hx
        exact absurd h2 (not_lt.mpr hx)
  · push_neg at h1 h2
    refine ⟨?_, ?_, ⟨fun _ => h2, fun _ => rfl⟩⟩
    · constructor
      · intro h
        exact absurd h (by decide)
      · intro hx
        exact absurd hx (not_lt.mpr h1)
    · constructor
      · intro h
        exact absurd h (by decide)
      · rintro ⟨hx, -⟩
        exact absurd hx (not_lt.mpr h2)

/-- A High-risk day used to build the C4 witness input. -/
def dayH : DailyForecast := ⟨"2025-01-03", "Friday", 3, [], .high⟩

/-- Witness forecast set with exactly 4 High-risk days out of 10. -/
def fd10 : List DailyForecast :=
  [dayH, dayH, dayH, dayH, dayA, dayA, dayA, dayA, dayA, dayA]

/-- C4 witness: a forecast set with exactly 4 of 10 High-risk days yields
overall risk High. -/
theorem generateForecastInsights_riskLevel_witness :
    (generateForecastInsights fd10 []).1.riskLevel = .high := by
  have h4 : (fd10.filter (fun d => d.riskLevel == Risk.high)).length = 4 := by decide
  have h10 : fd10.length = 10 := by decide
  exact (generateForecastInsights_riskLevel_iff fd10 [] (by decide)).1.mpr
    (by rw [h4, h10]; norm_num)

end UAM

namespace UAM

lemma baseRate_nonneg (env : ForecastEnv) (hist : List CrimeRecord) :
    0 ≤ baseRate env hist := by
  unfold baseRate daysInHistory
  apply div_nonneg (by positivity)
  exact le_trans zero_le_one (le_max_left _ _)

lemma getD_generateCrimeForecast (env : ForecastEnv) (hist : List CrimeRecord)
    (period : String) (i : ℕ)
    (hi : i < (generateCrimeForecast env hist period).length) :
    (generateCrimeForecast env hist period).getD i dfltDay = mkDay env hist (i + 1) := by
  by_cases h : hist.isEmpty
  · rw [generateCrimeForecast, if_pos h] at hi
    exact absurd hi (by simp)
  · rw [generateCrimeForecast, if_neg h] at hi ⊢
    rw [List.length_map, List.length_range] at hi
    simp [List.getD_eq_getElem?_getD, List.getElem?_map, List.getElem?_range hi]

/-- C5: the risk level of every day produced by generateCrimeForecast is a
function of that day's unrounded prediction and the base rate: High iff
prediction > 1.5 * baseRate, Medium iff 1.2 * baseRate < prediction <=
1.5 * baseRate, and Low iff prediction <= 1.2 * baseRate. -/
theorem generateCrimeForecast_risk_iff (env : ForecastEnv) (hist : List CrimeRecord)
    (period : String) (i : ℕ)
    (hi : i < (generateCrimeForecast env hist period).length) :
    (((generateCrimeForecast env hist period).getD i dfltDay).riskLevel = .high ↔
      predictionAt env hist (i + 1) > baseRate env hist * 1.5) ∧
    (((generateCrimeForecast env hist period).getD i dfltDay).riskLevel = .medium ↔
      (predictionAt env hist (i + 1) > baseRate env hist * 1.2 ∧
       predictionAt env hist (i + 1) ≤ baseRate env hist * 1.5)) ∧
    (((generateCrimeForecast env hist period).getD i dfltDay).riskLevel = .low ↔
      predictionAt env hist (i + 1) ≤ baseRate env hist * 1.2) := by
  rw [getD_generateCrimeForecast env hist period i hi]
  show (riskOf _ _ = _ ↔ _) ∧ (riskOf _ _ = _ ↔ _) ∧ (riskOf _ _ = _ ↔ _)
  unfold riskOf
  split_ifs with h1 h2
  · refine ⟨⟨fun _ => h1, fun _ => rfl⟩, ?_, ?_⟩
    · constructor
      · intro h
        exact absurd h (by decide)
      · rintro ⟨-, h3⟩
        exact absurd h1 (not_lt.mpr h3)
    · constructor
      · intro h
        exact absurd h (by decide)
      · intro hx
        exact absurd h1 (not_lt.mpr (by linarith [baseRate_nonneg env hist]))
  · refine ⟨?_, ⟨fun _ => ⟨h2, not_lt.mp h1⟩, fun _ => rfl⟩, ?_⟩
    · constructor
      · intro h
        exact absurd h (by decide)
      · intro hx
        exact absurd hx h1
    · constructor
      · intro h
        exact absurd h (by decide)
      · intro hx
        exact absurd h2 (not_lt.mpr hx)
  · push_neg at h1 h2
    refine ⟨?_, ?_, ⟨fun _ => h2, fun _ => rfl⟩⟩
    · constructor
      · intro h
        exact absurd h (by decide)
      · intro hx
        exact absurd hx (not_lt.mpr h1)
    · constructor
      · intro h
        exact absurd h (by decide)
      · rintro ⟨hx, -⟩
        exact absurd hx (not_lt.mpr h2)

/-- Concrete environment for witnesses: clock at epoch 0, every future day a
Sunday the 1st, jitter pinned to 1. -/
def envW : ForecastEnv :=
  ⟨0, fun _ => 0, fun _ => 1, fun _ => "2025-01-01", fun _ => 1⟩

/-- One-record history for the C5 witness. -/
def histW : List CrimeRecord := [⟨0, 0, 0, 1, "Theft"⟩]

/-- C5 witness: with a single historical record matching the forecast day's
day-of-week and week-of-month, the first forecast day's prediction is 28
times the base rate, hence classified High. -/
theorem generateCrimeForecast_risk_iff_witness :
    ((generateCrimeForecast envW histW "1week").getD 0 dfltDay).riskLevel = .high := by
  have hi : 0 < (generateCrimeForecast envW histW "1week").length := by
    rw [generateCrimeForecast]
    simp [histW, periodDays]
  refine (generateCrimeForecast_risk_iff envW histW "1week" 0 hi).1.mpr ?_
  norm_num [predictionAt, baseRate, daysInHistory, dayMult, weekMult, dowCount, womCount,
    envW, histW]

end UAM

namespace UAM

/-- Ten-record history concentrated in a single hour, used to refute the
per-day hourly-sum claim: all records share hour 0, day-of-week 0, and
day-of-month 1, with timestamps at the invocation instant. -/
def hist10 : List CrimeRecord :=
  [⟨0, 0, 0, 1, "Theft"⟩, ⟨0, 0, 0, 1, "Theft"⟩, ⟨0, 0, 0, 1, "Theft"⟩,
   ⟨0, 0, 0, 1, "Theft"⟩, ⟨0, 0, 0, 1, "Theft"⟩, ⟨0, 0, 0, 1, "Theft"⟩,
   ⟨0, 0, 0, 1, "Theft"⟩, ⟨0, 0, 0, 1, "Theft"⟩, ⟨0, 0, 0, 1, "Theft"⟩,
   ⟨0, 0, 0, 1, "Theft"⟩]

lemma prediction_hist10 : predictionAt envW hist10 1 = 280 := by
  norm_num [predictionAt, baseRate, daysInHistory, dayMult, weekMult, dowCount, womCount,
    envW, hist10]

lemma hourMult_hist10_zero : hourMult hist10 0 = 24 := by
  norm_num [hourMult, hourCount, hist10]

lemma hourMult_hist10_pos (h : ℕ) (hh : h ≠ 0) : hourMult hist10 h = 1 := by
  have hb : (0 == h) = false := beq_eq_false_iff_ne.mpr (Ne.symm hh)
  have : hourCount hist10 h = 0 := by
    simp [hourCount, hist10, List.filter, hb]
  simp [hourMult, this]

lemma mkDay_hist10_sum : (mkDay envW hist10 1).hourly.sum = 556 := by
  have hx : ∀ h : ℕ, h ≠ 0 →
      round (predictionAt envW hist10 1 / 24 * hourMult hist10 h) = 12 := by
    intro h hh
    rw [prediction_hist10, hourMult_hist10_pos h hh, round_eq]
    norm_num
  have h0 : round (predictionAt envW hist10 1 / 24 * hourMult hist10 0) = 280 := by
    rw [prediction_hist10, hourMult_hist10_zero, round_eq]
    norm_num
  show ((List.range 24).map
    (fun h => round (predictionAt envW hist10 1 / 24 * hourMult hist10 h))).sum = 556
  simp only [List.range_succ, List.range_zero, List.map_append, List.map_cons, List.map_nil,
    List.sum_append, List.sum_cons, List.sum_nil, List.nil_append]
  rw [h0, hx 1 (by norm_num), hx 2 (by norm_num), hx 3 (by norm_num), hx 4 (by norm_num),
    hx 5 (by norm_num), hx 6 (by norm_num), hx 7 (by norm_num), hx 8 (by norm_num),
    hx 9 (by norm_num), hx 10 (by norm_num), hx 11 (by norm_num), hx 12 (by norm_num),
    hx 13 (by norm_num), hx 14 (by norm_num), hx 15 (by norm_num), hx 16 (by norm_num),
    hx 17 (by norm_num), hx 18 (by norm_num), hx 19 (by norm_num), hx 20 (by norm_num),
    hx 21 (by norm_num), hx 22 (by norm_num), hx 23 (by norm_num)]
  norm_num

/-- C2 counterexample: the sum of a forecast day's hourly breakdown can
deviate from that day's predicted count by far more than 1.  On a qualifying
10-record history whose records all fall in hour 0, the first forecast day
predicts 280 incidents but its hourly breakdown sums to 556 (hour 0 receives
the full prediction because its multiplier is 24, while each of the 23 empty
hours defaults to multiplier 1 and still receives round(280/24) = 12). -/
theorem generateCrimeForecast_hourly_sum_claim_false :
    ¬ (∀ d ∈ generateCrimeForecast envW hist10 "1week",
        |d.hourly.sum - d.predictedCrimes| ≤ 1) := by
  intro hall
  have hmem : mkDay envW hist10 1 ∈ generateCrimeForecast envW hist10 "1week" := by
    rw [generateCrimeForecast, if_neg (by simp [hist10])]
    refine List.mem_map.mpr ⟨0, ?_, rfl⟩
    simp [periodDays]
  have hd := hall _ hmem
  have hpred : (mkDay envW hist10 1).predictedCrimes = 280 := by
    show round (predictionAt envW hist10 1) = 280
    rw [prediction_hist10]
    norm_num [round_eq]
  rw [mkDay_hist10_sum, hpred] at hd
  norm_num at hd

end UAM

namespace UAM

lemma listMapRangeSum {M : Type} [AddCommMonoid M] (n : ℕ) (f : ℕ → M) :
    ((List.range n).map f).sum = ∑ h ∈ Finset.range n, f h := by
  induction n with
  | zero => simp
  | succ m ih =>
    rw [List.range_succ, List.map_append, List.sum_append, Finset.sum_range_succ, ih]
    simp

lemma hourCount_cons (r : CrimeRecord) (t : List CrimeRecord) (h : ℕ) :
    hourCount (r :: t) h = hourCount t h + (if r.hour = h then 1 else 0) := by
  by_cases hrh : r.hour = h
  · simp [hourCount, List.filter_cons, hrh, Nat.add_comm]
  · simp [hourCount, List.filter_cons, hrh]

lemma sum_hourCount (hist : List CrimeRecord) (hh : ∀ r ∈ hist, r.hour < 24) :
    ∑ h ∈ Finset.range 24, (hourCount hist h : ℚ) = (hist.length : ℚ) := by
  induction hist with
  | nil => simp [hourCount]
  | cons r t ih =>
    have hr : r.hour < 24 := hh r (List.mem_cons_self r t)
    have ht : ∀ x ∈ t, x.hour < 24 := fun x hx => hh x (List.mem_cons_of_mem r hx)
    simp only [hourCount_cons]
    push_cast
    rw [Finset.sum_add_distrib, ih ht]
    have hone : ∑ h ∈ Finset.range 24, (if r.hour = h then (1 : ℚ) else 0) = 1 := by
      rw [Finset.sum_ite_eq]
      simp [Finset.mem_range, hr]
    rw [hone]
    simp

lemma sum_hourMult_parts (hist : List CrimeRecord) (P : ℚ)
    (hh : ∀ r ∈ hist, r.hour < 24)
    (hcov : ∀ h < 24, hourCount hist h ≠ 0)
    (hne : hist ≠ []) :
    ∑ h ∈ Finset.range 24, (P / 24 * hourMult hist h) = P := by
  have hT : (hist.length : ℚ) ≠ 0 := by
    simpa using fun hz => hne (List.length_eq_zero.mp hz)
  have hterm : ∀ h ∈ Finset.range 24,
      P / 24 * hourMult hist h = P / (hist.length : ℚ) * (hourCount hist h : ℚ) := by
    intro h hmem
    rw [Finset.mem_range] at hmem
    rw [hourMult, if_neg (hcov h hmem)]
    field_simp
    ring
  rw [Finset.sum_congr rfl hterm, ← Finset.mul_sum, sum_hourCount hist hh]
  field_simp

/-- C2 amended: when the history is non-degenerate in the sense that every
hour of the day occurs at least once in it, the sum of a forecast day's
hourly breakdown equals that day's predicted count to within 12 (24 hourly
roundings of at most 1/2 each, plus the rounding of the prediction itself);
without that proviso the deviation is unbounded, as the counterexample
shows.  The claimed tolerance of 1 does not hold. -/
theorem generateCrimeForecast_hourly_sum_bounded (env : ForecastEnv)
    (hist : List CrimeRecord) (period : String) (i : ℕ)
    (hh : ∀ r ∈ hist, r.hour < 24)
    (hcov : ∀ h < 24, hourCount hist h ≠ 0)
    (hi : i < (generateCrimeForecast env hist period).length) :
    |((generateCrimeForecast env hist period).getD i dfltDay).hourly.sum -
      ((generateCrimeForecast env hist period).getD i dfltDay).predictedCrimes| ≤ 12 := by
  have hne : hist ≠ [] := by
    intro hz
    rw [generateCrimeForecast, hz] at hi
    simp at hi
  rw [getD_generateCrimeForecast env hist period i hi]
  set P : ℚ := predictionAt env hist (i + 1) with hPdef
  have hsumZ : (mkDay env hist (i + 1)).hourly.sum =
      ∑ h ∈ Finset.range 24, round (P / 24 * hourMult hist h) :=
    listMapRangeSum 24 (fun h => round (P / 24 * hourMult hist h))
  have hpredZ : (mkDay env hist (i + 1)).predictedCrimes = round P := rfl
  rw [hsumZ, hpredZ]
  have hparts := sum_hourMult_parts hist P hh hcov hne
  have h1 : |(∑ h ∈ Finset.range 24, ((round (P / 24 * hourMult hist h) : ℤ) : ℚ)) -
      ∑ h ∈ Finset.range 24, (P / 24 * hourMult hist h)| ≤ 12 := by
    rw [← Finset.sum_sub_distrib]
    refine le_trans (Finset.abs_sum_le_sum_abs _ _) ?_
    have hb : ∀ h ∈ Finset.range 24,
        |((round (P / 24 * hourMult hist h) : ℤ) : ℚ) - P / 24 * hourMult hist h| ≤
          (1 : ℚ) / 2 := by
      intro h hmem
      rw [abs_sub_comm]
      exact abs_sub_round _
    refine le_trans (Finset.sum_le_sum hb) ?_
    rw [Finset.sum_const, Finset.card_range, nsmul_eq_mul]
    norm_num
  have h2 : |P - ((round P : ℤ) : ℚ)| ≤ 1 / 2 := abs_sub_round P
  have hq : |(((∑ h ∈ Finset.range 24, round (P / 24 * hourMult hist h)) - round P : ℤ) :
      ℚ)| ≤ 25 / 2 := by
    push_cast
    have h3 : |(∑ h ∈ Finset.range 24, (P / 24 * hourMult hist h)) -
        ((round P : ℤ) : ℚ)| ≤ 1 / 2 := by rw [hparts]; exact h2
    calc |(∑ h ∈ Finset.range 24, ((round (P / 24 * hourMult hist h) : ℤ) : ℚ)) -
          ((round P : ℤ) : ℚ)| =
        |((∑ h ∈ Finset.range 24, ((round (P / 24 * hourMult hist h) : ℤ) : ℚ)) -
            ∑ h ∈ Finset.range 24, (P / 24 * hourMult hist h)) +
          ((∑ h ∈ Finset.range 24, (P / 24 * hourMult hist h)) -
            ((round P : ℤ) : ℚ))| := by rw [sub_add_sub_cancel]
      _ ≤ |(∑ h ∈ Finset.range 24, ((round (P / 24 * hourMult hist h) : ℤ) : ℚ)) -
            ∑ h ∈ Finset.range 24, (P / 24 * hourMult hist h)| +
          |(∑ h ∈ Finset.range 24, (P / 24 * hourMult hist h)) -
            ((round P : ℤ) : ℚ)| := abs_add _ _
      _ ≤ 25 / 2 := by linarith
  have hlt : |(∑ h ∈ Finset.range 24, round (P / 24 * hourMult hist h)) - round P| < 13 := by
    have hc : ((|(∑ h ∈ Finset.range 24, round (P / 24 * hourMult hist h)) - round P| : ℤ) :
        ℚ) < 13 := by
      rw [Int.cast_abs]
      exact lt_of_le_of_lt hq (by norm_num)
    exact_mod_cast hc
  omega

/-- History with one record in each of the 24 hours, for the C2 witness. -/
def hist24 : List CrimeRecord :=
  (List.range 24).map (fun h => ⟨0, h, 0, 1, "Theft"⟩)

/-- C2 witness: on the all-hours 24-record history, the first forecast day's
hourly breakdown sums to within 12 of the day's predicted count. -/
theorem generateCrimeForecast_hourly_sum_bounded_witness :
    |((generateCrimeForecast envW hist24 "1week").getD 0 dfltDay).hourly.sum -
      ((generateCrimeForecast envW hist24 "1week").getD 0 dfltDay).predictedCrimes| ≤ 12 :=
  generateCrimeForecast_hourly_sum_bounded envW hist24 "1week" 0
    (by decide) (by decide)
    (by rw [generateCrimeForecast]; simp [hist24, periodDays])

end UAM

namespace UAM

/-- Coordinate fields of a nested location object as read by
createHeatmapData: location.latitude, location.lat, location.longitude,
location.lng.  A missing field is none; parseFloat of a missing field is
NaN, which the validation step discards. -/
structure LocCoords where
  latitude : Option ℚ
  lat : Option ℚ
  longitude : Option ℚ
  lng : Option ℚ
deriving DecidableEq

/-- A report as consumed by createHeatmapData: either a nested location
object or top-level coordinate fields. -/
structure HeatReport where
  location : Option LocCoords
  latitude : Option ℚ
  lat : Option ℚ
  longitude : Option ℚ
  lng : Option ℚ
deriving DecidableEq

/-- JS a || b on numbers-or-undefined: a unless a is undefined or 0. -/
def jsOrQ : Option ℚ → Option ℚ → Option ℚ
  | some q, b => if q = 0 then b else some q
  | none, b => b

/-- Latitude extraction: report.location ? (location.latitude || location.lat)
: (report.latitude || report.lat); none stands for the NaN produced by
parseFloat(undefined). -/
def extractLat (r : HeatReport) : Option ℚ :=
  match r.location with
  | some c => jsOrQ c.latitude c.lat
  | none => jsOrQ r.latitude r.lat

/-- Longitude extraction, analogous to extractLat. -/
def extractLng (r : HeatReport) : Option ℚ :=
  match r.location with
  | some c => jsOrQ c.longitude c.lng
  | none => jsOrQ r.longitude r.lng

/-- Coordinate validation of createHeatmapData: drop NaN (none) or zero
coordinates, then drop coordinates outside the Philippines bounding box
(lat in [4,22], lng in [116,127]).  Dropping is silent: the record simply
contributes nothing. -/
def validCoords (r : HeatReport) : Option (ℚ × ℚ) :=
  match extractLat r, extractLng r with
  | some la, some lo =>
      if la = 0 ∨ lo = 0 then none
      else if la < 4 ∨ 22 < la ∨ lo < 116 ∨ 127 < lo then none
      else some (la, lo)
  | _, _ => none

/-- Rounding to 4 decimal places, the numeric content of the
lat.toFixed(4) grouping key. -/
def fix4 (q : ℚ) : ℚ := (round (q * 10000) : ℤ) / 10000

/-- Grouping key of a coordinate pair. -/
def heatKey (p : ℚ × ℚ) : ℚ × ℚ := (fix4 p.1, fix4 p.2)

/-- Distinct grouping keys in first-occurrence (Map insertion) order. -/
def groupKeys (coords : List (ℚ × ℚ)) : List (ℚ × ℚ) :=
  coords.foldl (fun ks p => if heatKey p ∈ ks then ks else ks ++ [heatKey p]) []

/-- locationGroups: one entry per distinct rounded key, carrying the
unrounded coordinates of the first report of the group and the group
count. -/
def locationGroups (reports : List HeatReport) : List (ℚ × ℚ × ℕ) :=
  let coords := reports.filterMap validCoords
  (groupKeys coords).map (fun k =>
    let grp := coords.filter (fun p => heatKey p == k)
    ((grp.headI).1, (grp.headI).2, grp.length))

/-- Embedding of createHeatmapData for an already-filtered report list:
each group becomes the triple [lat, lng, intensity] with
intensity = min(1, min(1, count / 10) * (dial / 10)). -/
def createHeatmapData (dial : ℚ) (reports : List HeatReport) : List (ℚ × ℚ × ℚ) :=
  (locationGroups reports).map (fun g =>
    (g.1, g.2.1, min 1 (min 1 ((g.2.2 : ℚ) / 10) * (dial / 10))))

/-- First sample report of the C8 pair. -/
def heatR1 : HeatReport :=
  ⟨some ⟨some 14.60421, none, some 120.98223, none⟩, none, none, none, none⟩

/-- Second sample report, 0.00002 degrees away from the first. -/
def heatR2 : HeatReport :=
  ⟨some ⟨some 14.60419, none, some 120.98221, none⟩, none, none, none, none⟩

/-- Report at the degenerate origin (0, 0). -/
def heatR0 : HeatReport :=
  ⟨some ⟨none, some 0, none, some 0⟩, none, none, none, none⟩

/-- Report outside the valid bounding box. -/
def heatROob : HeatReport :=
  ⟨some ⟨some 91, none, some 200, none⟩, none, none, none, none⟩

/-- Report with no usable coordinates at all (parseFloat yields NaN). -/
def heatRNan : HeatReport := ⟨none, none, none, none, none⟩

end UAM

namespace UAM

/-- C8: the records at (14.60421, 120.98223) and (14.60419, 120.98221) share
one grouping key after 4-decimal rounding and therefore land in the same
heat cell (count 2, carrying the first record's unrounded coordinates),
while the records at (0, 0), at (91, 200) and with no parseable coordinates
are silently dropped, contributing no cell and raising no error; with the
intensity dial at 10 the single cell's intensity is
min(1, min(1, 2/10) * (10/10)) = 1/5. -/
theorem createHeatmapData_grouping :
    heatKey (14.60421, 120.98223) = heatKey (14.60419, 120.98221) ∧
    locationGroups [heatR1, heatR2, heatR0, heatROob, heatRNan] =
      [(14.60421, 120.98223, 2)] ∧
    createHeatmapData 10 [heatR1, heatR2, heatR0, heatROob, heatRNan] =
      [(14.60421, 120.98223, 1 / 5)] := by
  refine ⟨?_, ?_, ?_⟩
  · norm_num [heatKey, fix4, round_eq]
  · norm_num [locationGroups, groupKeys, heatKey, fix4, round_eq, validCoords, extractLat,
      extractLng, jsOrQ, heatR1, heatR2, heatR0, heatROob, heatRNan, List.filterMap,
      List.filter, List.headI]
  · norm_num [createHeatmapData, locationGroups, groupKeys, heatKey, fix4, round_eq,
      validCoords, extractLat, extractLng, jsOrQ, heatR1, heatR2, heatR0, heatROob, heatRNan,
      List.filterMap, List.filter, List.headI]

end UAM

namespace LocalArima

/-- Value of a location-bearing field in a raw report: either a string or a
nested object carrying optional address and name fields. -/
inductive LocValue where
  | str (s : String)
  | obj (address : Option String) (name : Option String)
deriving DecidableEq

/-- A raw crime report as filtered by fetchHistoricalData, with the legacy
field names the normalization supports. -/
structure RawReport where
  type : Option String
  crimeType : Option String
  crime_type : Option String
  location : Option LocValue
  location_address : Option String
  address : Option String
deriving DecidableEq

/-- JS a || b on strings-or-undefined: a unless a is undefined or empty. -/
def jsOrStr : Option String → Option String → Option String
  | some a, b => if a = "" then b else some a
  | none, b => b

/-- Category normalization:
String(report.type || report.crimeType || report.crime_type || ''). -/
def normCategory (r : RawReport) : String :=
  (jsOrStr r.type (jsOrStr r.crimeType r.crime_type)).getD ""

/-- Truthiness of a location value: objects are always truthy, strings
exactly when non-empty. -/
def truthyLoc : LocValue → Bool
  | .str s => s != ""
  | .obj _ _ => true

/-- First truthy value of the chain
report.location || report.location_address || report.address. -/
def firstTruthyLoc : List (Option LocValue) → Option LocValue
  | [] => none
  | none :: rest => firstTruthyLoc rest
  | some v :: rest => if truthyLoc v then some v else firstTruthyLoc rest

/-- Resolution of a truthy location value: a nested object resolves to
address || name || 'Unknown'; a string resolves to itself. -/
def resolveLocValue : LocValue → String
  | .str s => s
  | .obj a n => (jsOrStr a (jsOrStr n (some "Unknown"))).getD ""

/-- Location normalization of fetchHistoricalData: take the first truthy
value of location, location_address, address; resolve a nested object via
address || name || 'Unknown'; the final String(x || '') turns a fully falsy
chain into the empty string. -/
def normLocation (r : RawReport) : String :=
  match firstTruthyLoc
      [r.location, r.location_address.map .str, r.address.map .str] with
  | some v => resolveLocValue v
  | none => ""

/-- A string field is falsy when missing or empty. -/
def falsyStr : Option String → Bool
  | none => true
  | some s => s == ""

/-- The category cannot be resolved from any supported key. -/
def catUnresolved (r : RawReport) : Bool :=
  falsyStr r.type && falsyStr r.crimeType && falsyStr r.crime_type

/-- The location cannot be resolved from any supported key, including the
nested location object. -/
def locUnresolved (r : RawReport) : Bool :=
  (match r.location with
   | none => true
   | some (.str s) => s == ""
   | some (.obj a n) => falsyStr a && falsyStr n) &&
  falsyStr r.location_address && falsyStr r.address

/-- Report whose category keys are all missing and whose location is a
nested object carrying neither address nor name. -/
def rawUnknown : RawReport := ⟨none, none, none, some (.obj none none), none, none⟩

end LocalArima

namespace LocalArima

/-- C9 counterexample: a report whose category and location are unresolvable
from every supported key (all category keys missing; the nested location
object has neither address nor name) normalizes its location to the string
Unknown, not to the empty string. -/
theorem normalization_claim_false :
    catUnresolved rawUnknown = true ∧ locUnresolved rawUnknown = true ∧
    normCategory rawUnknown = "" ∧ normLocation rawUnknown ≠ "" := by
  decide

/-- C9 amended: for a report with unresolvable category and location, the
category normalizes to the empty string, and the location normalizes to the
empty string unless the location key holds a nested object, in which case
the fallback chain address || name || Unknown produces the string Unknown
instead. -/
theorem normalization_unresolved (r : RawReport)
    (hc : catUnresolved r = true) (hl : locUnresolved r = true) :
    normCategory r = "" ∧
    normLocation r = (match r.location with
                      | some (.obj _ _) => "Unknown"
                      | _ => "") := by
  have hgetD : ∀ b : Option String, falsyStr b = true → b.getD "" = "" := by
    intro b hb
    cases b with
    | none => rfl
    | some t => simpa [falsyStr] using hb
  have hjs : ∀ a b : Option String, falsyStr a = true → jsOrStr a b = b := by
    intro a b ha
    cases a with
    | none => rfl
    | some t =>
      simp only [falsyStr, beq_iff_eq] at ha
      simp [jsOrStr, ha]
  have hskip : ∀ (o : Option String) (rest : List (Option LocValue)),
      falsyStr o = true → firstTruthyLoc (o.map .str :: rest) = firstTruthyLoc rest := by
    intro o rest ho
    cases o with
    | none => rfl
    | some t =>
      simp only [falsyStr, beq_iff_eq] at ho
      subst ho
      simp [firstTruthyLoc, truthyLoc]
  simp only [catUnresolved, Bool.and_eq_true] at hc
  simp only [locUnresolved, Bool.and_eq_true] at hl
  obtain ⟨⟨hm, hla⟩, had⟩ := hl
  refine ⟨by rw [normCategory, hjs _ _ hc.1.1, hjs _ _ hc.1.2, hgetD _ hc.2], ?_⟩
  cases hL : r.location with
  | none =>
    rw [normLocation, hL]
    show (match firstTruthyLoc (none :: [r.location_address.map .str, r.address.map .str]) with
      | some v => resolveLocValue v
      | none => "") = ""
    rw [show firstTruthyLoc (none :: [r.location_address.map .str, r.address.map .str]) =
        firstTruthyLoc [r.location_address.map .str, r.address.map .str] from rfl,
      hskip _ _ hla, hskip _ _ had]
    rfl
  | some v =>
    rw [hL] at hm
    cases v with
    | str t =>
      have ht : t = "" := by simpa [beq_iff_eq] using hm
      subst ht
      rw [normLocation, hL]
      show (match firstTruthyLoc (some (.str "") ::
          [r.location_address.map .str, r.address.map .str]) with
        | some v => resolveLocValue v
        | none => "") = ""
      rw [show firstTruthyLoc (some (.str "") ::
          [r.location_address.map .str, r.address.map .str]) =
          firstTruthyLoc [r.location_address.map .str, r.address.map .str] by
        simp [firstTruthyLoc, truthyLoc],
        hskip _ _ hla, hskip _ _ had]
      rfl
    | obj a n =>
      rw [Bool.and_eq_true] at hm
      rw [normLocation, hL]
      show (match firstTruthyLoc (some (.obj a n) ::
          [r.location_address.map .str, r.address.map .str]) with
        | some v => resolveLocValue v
        | none => "") = "Unknown"
      rw [show firstTruthyLoc (some (.obj a n) ::
          [r.location_address.map .str, r.address.map .str]) = some (.obj a n) by
        simp [firstTruthyLoc, truthyLoc]]
      show resolveLocValue (.obj a n) = "Unknown"
      rw [resolveLocValue, hjs _ _ hm.1, hjs _ _ hm.2]
      rfl

/-- C9 witness: the concrete unresolvable report with a nested empty
location object yields category empty and location Unknown. -/
theorem normalization_unresolved_witness :
    normCategory rawUnknown = "" ∧ normLocation rawUnknown = "Unknown" := by
  have h := normalization_unresolved rawUnknown (by decide) (by decide)
  exact ⟨h.1, h.2⟩

end LocalArima

namespace UAM

/-- The error message thrown when fewer than 10 qualifying records remain. -/
def insufficientMsg : String :=
  "Insufficient historical data for accurate forecasting (minimum 10 records required)"

/-- Filter of the statistical fallback of fetchCrimeForecast: a record
qualifies when it matches the selected crime type (no filtering when no type
is selected, i.e. forecastCrimeType is falsy) and its timestamp is at least
threeMonthsAgo, the invocation time rolled back three calendar months by
Date#setMonth. -/
def qualifies (filterType : Option String) (cutoffMs : ℚ) (r : CrimeRecord) : Bool :=
  (match filterType with
   | some t => r.crimeType == t
   | none => true) && decide (cutoffMs ≤ r.ts)

/-- Statistical branch of fetchCrimeForecast: filter the mapped records by
crime type and 3-month cutoff, fail with the insufficient-data error when
fewer than 10 remain, otherwise forecast from the filtered history. -/
def statisticalForecast (env : ForecastEnv) (filterType : Option String) (cutoffMs : ℚ)
    (records : List CrimeRecord) (period : String) :
    Except String (List DailyForecast) :=
  let hist := records.filter (qualifies filterType cutoffMs)
  if hist.length < 10 then .error insufficientMsg
  else .ok (generateCrimeForecast env hist period)

/-- C10: a record qualifies only if its timestamp reaches the 3-month cutoff,
and the minimum-of-10 check runs after that cutoff: if every record predates
the cutoff (however many there are), the statistical fallback fails with the
insufficient-data error. -/
theorem statisticalForecast_stale_records (env : ForecastEnv)
    (filterType : Option String) (cutoffMs : ℚ) (records : List CrimeRecord)
    (period : String) (hold : ∀ r ∈ records, r.ts < cutoffMs) :
    (∀ r : CrimeRecord, qualifies filterType cutoffMs r = true → cutoffMs ≤ r.ts) ∧
    statisticalForecast env filterType cutoffMs records period = .error insufficientMsg := by
  constructor
  · intro r hq
    rw [qualifies.eq_def, Bool.and_eq_true] at hq
    exact of_decide_eq_true hq.2
  · have hnil : records.filter (qualifies filterType cutoffMs) = [] := by
      rw [List.filter_eq_nil]
      intro r hr
      rw [qualifies.eq_def, Bool.and_eq_true]
      rintro ⟨-, habs⟩
      exact absurd (of_decide_eq_true habs) (not_le.mpr (hold r hr))
    rw [statisticalForecast]
    simp [hnil]

/-- Ten stale records, all timestamped before the cutoff. -/
def staleRecs : List CrimeRecord :=
  [⟨0, 0, 0, 1, "Theft"⟩, ⟨0, 1, 0, 1, "Theft"⟩, ⟨0, 2, 0, 1, "Theft"⟩,
   ⟨0, 3, 0, 1, "Theft"⟩, ⟨0, 4, 0, 1, "Theft"⟩, ⟨0, 5, 0, 1, "Theft"⟩,
   ⟨0, 6, 0, 1, "Theft"⟩, ⟨0, 7, 0, 1, "Theft"⟩, ⟨0, 8, 0, 1, "Theft"⟩,
   ⟨0, 9, 0, 1, "Theft"⟩]

/-- C10 witness: 10 records all older than the cutoff still produce the
insufficient-data error. -/
theorem statisticalForecast_stale_records_witness :
    statisticalForecast envW none 1 staleRecs "1week" = .error insufficientMsg :=
  (statisticalForecast_stale_records envW none 1 staleRecs "1week"
    (by intro r hr; fin_cases hr <;> norm_num)).2

end UAM
